import Mathlib

/-!
Verification of the task-manager core (`task_manager.py`) against its
natural-language specification.

The Python source is shallowly embedded: the `Task` class becomes a Lean
structure with pure mutation functions, `TaskManager` becomes a structure
holding the ordered task list together with a model of the backing file,
and every fallible Python operation (a raised `ValueError`/`KeyError`)
returns `Except`.  Python string primitives used by the source
(`str.lower`, `str.strip`, the `in` substring test) are modelled over the
character list of a `String`, matching CPython semantics on ASCII data.
The wall clock (`datetime.now`, `date.today`) and the external
`dateparser` library are threaded through as explicit parameters
(`now`, `today`, `pd`), as the code is deterministic given them.
-/

/-- Models CPython `str.lower` on a single character (ASCII range; the
source only ever compares ASCII tag/priority strings). -/
def charLower (c : Char) : Char :=
  if 65 ≤ c.toNat ∧ c.toNat ≤ 90 then Char.ofNat (c.toNat + 32) else c

/-- Models Python `s.lower()`. -/
def pyLower (s : String) : String := ⟨s.data.map charLower⟩

/-- ASCII whitespace, as stripped by Python `str.strip()`. -/
def isWs (c : Char) : Bool := c = ' ' || c = '\t' || c = '\n' || c = '\r'

/-- Models Python `s.strip()`: drop leading and trailing whitespace. -/
def pyStrip (s : String) : String :=
  ⟨((s.data.dropWhile isWs).reverse.dropWhile isWs).reverse⟩

/-- Substring occurrence on character lists. -/
def isSubList (n : List Char) : List Char → Bool
  | [] => n.isPrefixOf []
  | c :: t => n.isPrefixOf (c :: t) || isSubList n t

/-- Models the Python substring test `needle in hay`. -/
def pyIn (needle hay : String) : Bool := isSubList needle.data hay.data

/-- Lexicographic strict order on character lists; for two well-formed
ISO `YYYY-MM-DD` strings this coincides with `datetime.date` order. -/
def charListLt : List Char → List Char → Bool
  | [], [] => false
  | [], _ :: _ => true
  | _ :: _, [] => false
  | a :: s, b :: t => a < b || (a = b && charListLt s t)

/-- ASCII digit test. -/
def isDigitCh (c : Char) : Bool := 48 ≤ c.toNat && c.toNat ≤ 57

def digitVal (c : Char) : Nat := c.toNat - 48

def isLeapYear (y : Nat) : Bool := (y % 4 == 0 && y % 100 != 0) || y % 400 == 0

def daysInMonth (y m : Nat) : Nat :=
  if m = 2 then (if isLeapYear y then 29 else 28)
  else if m = 4 ∨ m = 6 ∨ m = 9 ∨ m = 11 then 30 else 31

/-- Models success of `datetime.fromisoformat(s).date()` for the
`YYYY-MM-DD` strings the program stores: the string must be a valid
ISO calendar date.  (Failure corresponds to the `ValueError` branch of
`Task.is_overdue`, which the source treats as "not overdue".) -/
def isoDateOk (s : String) : Bool :=
  match s.data with
  | [y1, y2, y3, y4, h1, m1, m2, h2, d1, d2] =>
    isDigitCh y1 && isDigitCh y2 && isDigitCh y3 && isDigitCh y4 &&
    h1 = '-' && h2 = '-' &&
    isDigitCh m1 && isDigitCh m2 && isDigitCh d1 && isDigitCh d2 &&
    (let y := ((digitVal y1 * 10 + digitVal y2) * 10 + digitVal y3) * 10 + digitVal y4
     let mo := digitVal m1 * 10 + digitVal m2
     let d := digitVal d1 * 10 + digitVal d2
     1 ≤ mo && mo ≤ 12 && 1 ≤ d && d ≤ daysInMonth y mo)
  | _ => false

deriving instance DecidableEq for Except

namespace TaskMgr

/-- The priority enumeration.  `Task.__init__` lower-cases the priority
string and rejects anything outside `["low", "medium", "high"]`, so every
`Task` object the program holds has one of these three priorities. -/
inductive Priority
  | low
  | medium
  | high
deriving DecidableEq

/-- The stored (lower-case) string form of a priority. -/
def Priority.toStr : Priority → String
  | .low => "low"
  | .medium => "medium"
  | .high => "high"

/-- Models `priority.lower()` followed by the membership test
`self.priority not in ["low", "medium", "high"]` in `Task.__init__`
(and the identical test in `TaskManager.update_task`). -/
def Priority.parse (s : String) : Option Priority :=
  if pyLower s = "low" then some .low
  else if pyLower s = "medium" then some .medium
  else if pyLower s = "high" then some .high
  else none

/-- A `Task` object (`class Task`). -/
structure Task where
  title : String
  priority : Priority
  due_date : Option String
  tags : List String
  completed : Bool
  created_at : String
deriving DecidableEq

/-- `Task.__init__(title, priority, due_date, tags)`: lower-cases and
validates the priority (raising `ValueError` otherwise), takes the tag
list as given (`tags or []` — no lower-casing), sets `completed = False`
and stamps `created_at` with the current instant `now`. -/
def Task.init (now title priority : String) (due_date : Option String)
    (tags : Option (List String)) : Except String Task :=
  match Priority.parse priority with
  | some p => .ok { title := title, priority := p, due_date := due_date,
                    tags := tags.getD [], completed := false, created_at := now }
  | none => .error "Priority must be low, medium, or high"

/-- `Task.mark_complete`. -/
def Task.mark_complete (t : Task) : Task := { t with completed := true }

/-- `Task.is_overdue`: false if there is no due date (or it is the empty
string, which is falsy) or the task is completed; otherwise parse the
stored ISO date (a parse failure yields false) and compare it strictly
against today. -/
def Task.is_overdue (t : Task) (today : String) : Bool :=
  match t.due_date with
  | none => false
  | some d =>
    if d = "" || t.completed then false
    else if isoDateOk d then charListLt d.data today.data else false

/-- `Task.add_tag`: `if tag and tag not in self.tags:
self.tags.append(tag.lower())` — note the membership test uses the tag
as given while the append lower-cases it. -/
def Task.add_tag (t : Task) (tag : String) : Task :=
  if tag ≠ "" ∧ tag ∉ t.tags then { t with tags := t.tags ++ [pyLower tag] } else t

/-- Models Python `list.remove(v)`: removes the first occurrence of `v`,
or fails (`ValueError`) when `v` is absent. -/
def listRemoveFirst : List String → String → Option (List String)
  | [], _ => none
  | x :: xs, v => if x = v then some xs else (listRemoveFirst xs v).map (x :: ·)

/-- `Task.remove_tag`: `if tag in self.tags: self.tags.remove(tag.lower())`
— the membership test uses the tag as given while the removal uses its
lower-casing, so `list.remove` can raise `ValueError`. -/
def Task.remove_tag (t : Task) (tag : String) : Except String Task :=
  if tag ∈ t.tags then
    match listRemoveFirst t.tags (pyLower tag) with
    | some l => .ok { t with tags := l }
    | none => .error "list.remove(x): x not in list"
  else .ok t

/-- A JSON task record (`dict`) as read from or written to the backing
file; `none` in a field means the key is absent from the record.  The
`due_date` field distinguishes an absent key (outer `none`) from a
present key holding `null` (inner `none`). -/
structure TaskDict where
  title : Option String
  priority : Option String
  due_date : Option (Option String)
  tags : Option (List String)
  completed : Option Bool
  created_at : Option String
deriving DecidableEq

/-- `Task.to_dict`: every key is present. -/
def Task.to_dict (t : Task) : TaskDict :=
  { title := some t.title, priority := some t.priority.toStr,
    due_date := some t.due_date, tags := some t.tags,
    completed := some t.completed, created_at := some t.created_at }

/-- `Task.from_dict`: `data["title"]` and `data["priority"]` raise
`KeyError` when absent; `data.get("due_date")` collapses an absent key
and a stored `null` to no due date; `data.get("tags", [])` defaults to
the empty list; construction validates the priority; then
`task.completed = data["completed"]` and
`task.created_at = data["created_at"]` (each raising `KeyError` when
absent) overwrite the construction-time values. -/
def Task.from_dict (now : String) (d : TaskDict) : Except String Task :=
  match d.title with
  | none => .error "KeyError: title"
  | some ti =>
    match d.priority with
    | none => .error "KeyError: priority"
    | some pr =>
      match Task.init now ti pr d.due_date.join (some (d.tags.getD [])) with
      | .error e => .error e
      | .ok task =>
        match d.completed with
        | none => .error "KeyError: completed"
        | some c =>
          match d.created_at with
          | none => .error "KeyError: created_at"
          | some ca => .ok { task with completed := c, created_at := ca }

-- Quick sanity examples (construction and the tag operations).
example : Task.init "t0" "Task" "LOW" none (some ["Work"]) =
    Except.ok { title := "Task", priority := .low, due_date := none,
                tags := ["Work"], completed := false, created_at := "t0" } := by decide

example : (Task.mk "T" .low none ["work"] false "t0").add_tag "work" =
    Task.mk "T" .low none ["work"] false "t0" := by decide

/-- The parsed shape of the backing file as `TaskManager.load_tasks` sees
it: the file may be missing (`FileNotFoundError`), present but not valid
JSON (`json.JSONDecodeError`), or a parsed sequence of records. -/
inductive RawFile
  | missing
  | unparseable
  | parsed (records : List TaskDict)
deriving DecidableEq

/-- `class TaskManager`: the ordered task sequence together with the
current state of the backing file. -/
structure TaskManager where
  tasks : List Task
  file : RawFile
deriving DecidableEq

/-- `TaskManager.save_tasks`: serialize the whole sequence and overwrite
the backing file. -/
def TaskManager.save_tasks (m : TaskManager) : TaskManager :=
  { m with file := RawFile.parsed (m.tasks.map Task.to_dict) }

/-- The list comprehension `[Task.from_dict(t) for t in data]`: the first
failing record aborts the whole load with its exception. -/
def tasksFromRecords (now : String) : List TaskDict → Except String (List Task)
  | [] => .ok []
  | d :: ds =>
    match Task.from_dict now d with
    | .error e => .error e
    | .ok t =>
      match tasksFromRecords now ds with
      | .error e => .error e
      | .ok ts => .ok (t :: ts)

/-- `TaskManager.load_tasks`: a missing file yields the empty sequence;
a JSON decode failure prints a warning (the `Bool` component) and yields
the empty sequence; any other exception — in particular a `KeyError` or
`ValueError` from `Task.from_dict` — is not caught and propagates. -/
def TaskManager.load_tasks (now : String) (raw : RawFile) :
    Except String (List Task × Bool) :=
  match raw with
  | .missing => .ok ([], false)
  | .unparseable => .ok ([], true)
  | .parsed rs =>
    match tasksFromRecords now rs with
    | .ok ts => .ok (ts, false)
    | .error e => .error e

/-- `TaskManager.__init__`: construct the store by loading the backing
file; the `Bool` is the warning signal emitted during the load. -/
def TaskManager.init (now : String) (raw : RawFile) :
    Except String (TaskManager × Bool) :=
  match TaskManager.load_tasks now raw with
  | .ok (ts, w) => .ok ({ tasks := ts, file := raw }, w)
  | .error e => .error e

/-- `TaskManager.add_task`: reject a blank title, resolve the due
expression through `parse_date` (modelled by the injected `pd`; a falsy
expression is not resolved at all), construct the task from the trimmed
title, append, save. -/
def TaskManager.add_task (pd : String → Option String) (now : String)
    (m : TaskManager) (title priority : String) (due_date : Option String)
    (tags : Option (List String)) : Except String (TaskManager × Task) :=
  if title = "" ∨ pyStrip title = "" then .error "Task title cannot be empty"
  else
    match Task.init now (pyStrip title) priority
        (match due_date with
         | some d => if d = "" then none else pd d
         | none => none) tags with
    | .error e => .error e
    | .ok t => .ok (({ m with tasks := m.tasks ++ [t] }).save_tasks, t)

/-- The accumulation loop of `TaskManager.search_tasks`: a task is
appended when the lowered query occurs in its lowered title, or else in
one of its tags (taken as stored, not lowered). -/
def searchLoop (q : String) : List Task → List Task
  | [] => []
  | t :: ts =>
    if pyIn q (pyLower t.title) then t :: searchLoop q ts
    else if t.tags.any (fun g => pyIn q g) then t :: searchLoop q ts
    else searchLoop q ts

/-- `TaskManager.search_tasks`. -/
def TaskManager.search_tasks (m : TaskManager) (query : String) : List Task :=
  searchLoop (pyLower query) m.tasks

/-- `TaskManager.list_tasks` with its three optional filters (a `some ""`
filter string is falsy in Python and therefore inactive). -/
def TaskManager.list_tasks (m : TaskManager) (show_completed : Bool)
    (priority_filter tag_filter : Option String) : List Task :=
  let ts := if show_completed then m.tasks else m.tasks.filter (fun t => !t.completed)
  let ts2 := match priority_filter with
    | some p => if p ≠ "" then ts.filter (fun t => t.priority.toStr == pyLower p) else ts
    | none => ts
  match tag_filter with
  | some g => if g ≠ "" then ts2.filter (fun t => t.tags.contains (pyLower g)) else ts2
  | none => ts2

/-- The dict `priority_order = {"high": 0, "medium": 1, "low": 2}`. -/
def priority_order : Priority → Nat
  | .high => 0
  | .medium => 1
  | .low => 2

/-- The sort key `(t.completed, priority_order[t.priority],
not t.is_overdue())`, with Python booleans encoded as 0/1
(`False < True`). -/
def sortKey (today : String) (t : Task) : Nat × Nat × Nat :=
  ((if t.completed then 1 else 0), priority_order t.priority,
   (if t.is_overdue today then 0 else 1))

/-- Lexicographic comparison of sort keys, as Python compares tuples. -/
def tupleLe (a b : Nat × Nat × Nat) : Bool :=
  decide (a.1 < b.1) ||
    (decide (a.1 = b.1) &&
      (decide (a.2.1 < b.2.1) ||
        (decide (a.2.1 = b.2.1) && decide (a.2.2 ≤ b.2.2))))

/-- The comparator induced by the sort key. -/
def keyLe (today : String) (a b : Task) : Bool :=
  tupleLe (sortKey today a) (sortKey today b)

/-- `TaskManager.get_tasks_sorted`: `sorted(...)` is a stable sort by the
key above; `List.mergeSort` is the stable sort of the Lean library. -/
def TaskManager.get_tasks_sorted (m : TaskManager) (today : String)
    (show_completed : Bool) (priority_filter tag_filter : Option String) : List Task :=
  (m.list_tasks show_completed priority_filter tag_filter).mergeSort (keyLe today)

/-- `TaskManager.complete_task`. -/
def TaskManager.complete_task (m : TaskManager) (index : Int) : TaskManager × Bool :=
  if h : 0 ≤ index ∧ index < (m.tasks.length : Int) then
    let t := (m.tasks.get ⟨index.toNat, by omega⟩).mark_complete
    (({ m with tasks := m.tasks.set index.toNat t }).save_tasks, true)
  else (m, false)

/-- `TaskManager.add_tag_to_task`. -/
def TaskManager.add_tag_to_task (m : TaskManager) (index : Int) (tag : String) :
    TaskManager × Bool :=
  if h : 0 ≤ index ∧ index < (m.tasks.length : Int) then
    let t := (m.tasks.get ⟨index.toNat, by omega⟩).add_tag tag
    (({ m with tasks := m.tasks.set index.toNat t }).save_tasks, true)
  else (m, false)

/-- `TaskManager.remove_tag_from_task`; a `ValueError` escaping
`Task.remove_tag` propagates before the save. -/
def TaskManager.remove_tag_from_task (m : TaskManager) (index : Int) (tag : String) :
    TaskManager × Except String Bool :=
  if h : 0 ≤ index ∧ index < (m.tasks.length : Int) then
    match (m.tasks.get ⟨index.toNat, by omega⟩).remove_tag tag with
    | .ok t => (({ m with tasks := m.tasks.set index.toNat t }).save_tasks, .ok true)
    | .error e => (m, .error e)
  else (m, .ok false)

/-- The `if due_date is not None` and `if tags is not None` steps of
`TaskManager.update_task` (an empty due string explicitly clears the due
date; a provided tag list is lower-cased elementwise). -/
def applyDueAndTags (pd : String → Option String) (t : Task)
    (due_date : Option String) (tags : Option (List String)) : Task :=
  let t1 := match due_date with
    | some d => { t with due_date := if d = "" then none else pd d }
    | none => t
  match tags with
  | some l => { t1 with tags := l.map pyLower }
  | none => t1

/-- The field-update sequence of `TaskManager.update_task` on the task at
the given index: a truthy title is trimmed and assigned first; a truthy
priority is then validated — on failure the `ValueError` is raised with
the title already assigned (the error payload carries that task state);
then due date and tags are applied. -/
def updateTaskFields (pd : String → Option String) (t0 : Task)
    (title priority due_date : Option String) (tags : Option (List String)) :
    Except (String × Task) Task :=
  let t1 := match title with
    | some s => if s ≠ "" then { t0 with title := pyStrip s } else t0
    | none => t0
  match priority with
  | some p =>
    if p ≠ "" then
      match Priority.parse p with
      | none => .error ("Priority must be low, medium, or high", t1)
      | some pr => .ok (applyDueAndTags pd { t1 with priority := pr } due_date tags)
    else .ok (applyDueAndTags pd t1 due_date tags)
  | none => .ok (applyDueAndTags pd t1 due_date tags)

/-- `TaskManager.update_task`: an invalid index returns `None` without
mutating; otherwise the fields are applied in place — on a priority
`ValueError` the task keeps the already-applied title change and the
save step is never reached; on success the store is saved and the
updated task returned. -/
def TaskManager.update_task (pd : String → Option String) (m : TaskManager)
    (index : Int) (title priority due_date : Option String)
    (tags : Option (List String)) : TaskManager × Except String (Option Task) :=
  if h : 0 ≤ index ∧ index < (m.tasks.length : Int) then
    match updateTaskFields pd (m.tasks.get ⟨index.toNat, by omega⟩)
        title priority due_date tags with
    | .error (e, t1) => ({ m with tasks := m.tasks.set index.toNat t1 }, .error e)
    | .ok t2 => (({ m with tasks := m.tasks.set index.toNat t2 }).save_tasks, .ok (some t2))
  else (m, .ok none)

/-! ### Helper lemmas -/

lemma Priority.parse_toStr (p : Priority) : Priority.parse p.toStr = some p := by
  cases p <;> decide

/-! ### Claims -/

/-- C1: the claim states that `Task.add_tag` is idempotent under
case-insensitive comparison, and in particular that after
`add("Task", "low", tags=["Work"])` the call `add_tag_to(0, "WORK")`
leaves `tags == ["work"]`.  The code violates this: the membership test
`tag not in self.tags` compares the tag as given while the append
lower-cases it, and construction does not lower-case the initial tags,
so the scenario leaves `tags == ["Work", "work"]` — two entries, a
case-duplicate. -/
theorem C1_add_tag_case_idempotence_fails_in_code :
    TaskManager.add_task (fun _ => none) "t0" ⟨[], RawFile.parsed []⟩
        "Task" "low" none (some ["Work"]) =
      Except.ok (⟨[⟨"Task", .low, none, ["Work"], false, "t0"⟩],
          RawFile.parsed [⟨some "Task", some "low", some none, some ["Work"],
            some false, some "t0"⟩]⟩,
        ⟨"Task", .low, none, ["Work"], false, "t0"⟩) ∧
    ((TaskManager.mk [⟨"Task", .low, none, ["Work"], false, "t0"⟩]
        (RawFile.parsed [⟨some "Task", some "low", some none, some ["Work"],
          some false, some "t0"⟩])).add_tag_to_task 0 "WORK").1.tasks.map Task.tags =
      [["Work", "work"]] := by
  constructor
  · decide
  · decide

/-- C3: the claim states the invariant that no store operation can leave
a task with an empty or whitespace-only title.  The code violates it:
`update_task` only tests the truthiness of the new title (`if title:`),
so the whitespace-only title `"   "` passes the test and
`title.strip()` assigns the empty string. -/
theorem C3_update_whitespace_title_breaks_invariant_in_code :
    TaskManager.add_task (fun _ => none) "t0" ⟨[], RawFile.parsed []⟩
        "Original" "medium" none none =
      Except.ok (⟨[⟨"Original", .medium, none, [], false, "t0"⟩],
          RawFile.parsed [⟨some "Original", some "medium", some none, some [],
            some false, some "t0"⟩]⟩,
        ⟨"Original", .medium, none, [], false, "t0"⟩) ∧
    ((TaskManager.mk [⟨"Original", .medium, none, [], false, "t0"⟩]
        (RawFile.parsed [⟨some "Original", some "medium", some none, some [],
          some false, some "t0"⟩])).update_task (fun _ => none) 0
        (some "   ") none none none).1.tasks.map Task.title = [""] := by
  constructor
  · decide
  · decide

/-- C5: the claim states that `Task.remove_tag` never raises, the
removal error branch being unreachable.  The code violates this: the
membership test uses the tag as given while the removal uses its
lower-casing, so on a task constructed with `tags=["Work"]` the call
`remove_tag("Work")` passes the membership test and then
`list.remove("work")` raises `ValueError`. -/
theorem C5_remove_tag_value_error_reachable_in_code :
    Task.init "t0" "T" "low" none (some ["Work"]) =
      Except.ok ⟨"T", .low, none, ["Work"], false, "t0"⟩ ∧
    (Task.mk "T" .low none ["Work"] false "t0").remove_tag "Work" =
      Except.error "list.remove(x): x not in list" := by
  constructor
  · decide
  · decide

/-- C8: serialize (`Task.to_dict`) followed by deserialize
(`Task.from_dict`) restores every field — title, priority, due date,
tags (even as a sequence, hence also as a set), completed and
created_at — for every task and every deserialization instant. -/
theorem C8_to_dict_from_dict_round_trip (t : Task) (now : String) :
    Task.from_dict now t.to_dict = Except.ok t := by
  obtain ⟨ti, pr, dd, tg, c, ca⟩ := t
  simp [Task.from_dict, Task.to_dict, Task.init, Priority.parse_toStr, Option.join]

/-- C10: deserialization defaults exactly two fields — a record without
a `tags` key yields the empty tag sequence and a record without a
`due_date` key (or with a stored `null`) yields an absent due date —
while a record missing any of `title`, `priority`, `completed` or
`created_at` fails with a `KeyError` instead of defaulting; on success
`completed` and `created_at` are taken verbatim from the record,
overriding the construction-time stamp `now`. -/
theorem C10_from_dict_defaults_and_failures (now : String) (d : TaskDict) :
    (d.title = none → (Task.from_dict now d).isOk = false) ∧
    (d.priority = none → (Task.from_dict now d).isOk = false) ∧
    (d.completed = none → (Task.from_dict now d).isOk = false) ∧
    (d.created_at = none → (Task.from_dict now d).isOk = false) ∧
    (∀ ti pr p c ca, d.title = some ti → d.priority = some pr →
      Priority.parse pr = some p → d.completed = some c → d.created_at = some ca →
      Task.from_dict now d =
        Except.ok ⟨ti, p, d.due_date.join, d.tags.getD [], c, ca⟩) := by
  obtain ⟨ti?, pr?, dd?, tg?, c?, ca?⟩ := d
  refine ⟨?_, ?_, ?_, ?_, ?_⟩
  · intro h
    subst h
    simp [Task.from_dict, Except.isOk, Except.toBool]
  · intro h
    subst h
    rcases ti? with _ | ti <;> simp [Task.from_dict, Except.isOk, Except.toBool]
  · intro h
    subst h
    rcases ti? with _ | ti <;> rcases pr? with _ | pr <;>
      simp only [Task.from_dict, Task.init] <;>
      try rcases hpp : Priority.parse pr with _ | p <;> simp [hpp]
    all_goals simp [Except.isOk, Except.toBool]
  · intro h
    subst h
    rcases ti? with _ | ti <;> rcases pr? with _ | pr <;> rcases c? with _ | c <;>
      simp only [Task.from_dict, Task.init] <;>
      try rcases hpp : Priority.parse pr with _ | p <;> simp [hpp]
    all_goals simp [Except.isOk, Except.toBool]
  · intro ti pr p c ca h1 h2 hp h3 h4
    subst h1; subst h2; subst h3; subst h4
    simp [Task.from_dict, Task.init, hp]

/-- Witness for C10 at concrete records: a record with only `tags` and
`due_date` absent deserializes with the two documented defaults and the
record values of `completed`/`created_at` (not the stamp), and a record
missing `completed` fails. -/
theorem C10_witness :
    Task.from_dict "stamp" ⟨some "T", some "HIGH", none, none, some true, some "c0"⟩ =
      Except.ok ⟨"T", .high, none, [], true, "c0"⟩ ∧
    (Task.from_dict "stamp" ⟨some "T", some "high", some (some "2024-01-01"),
        some ["a"], none, some "c0"⟩).isOk = false := by
  constructor
  · exact (C10_from_dict_defaults_and_failures "stamp"
      ⟨some "T", some "HIGH", none, none, some true, some "c0"⟩).2.2.2.2
      "T" "HIGH" .high true "c0" rfl rfl (by decide) rfl rfl
  · exact (C10_from_dict_defaults_and_failures "stamp"
      ⟨some "T", some "high", some (some "2024-01-01"), some ["a"], none, some "c0"⟩).2.2.1 rfl

/-- C2 counterexample: the claim asserts that every malformed backing
file — including one that parses as JSON but whose records are invalid —
yields an empty store plus a warning and never a raised error.  Loading
a parsed file whose single record is the empty object raises `KeyError`
(uncaught by `load_tasks`, which only catches `FileNotFoundError` and
`json.JSONDecodeError`). -/
theorem C2_invalid_record_raises :
    TaskManager.init "t0" (RawFile.parsed [⟨none, none, none, none, none, none⟩]) =
      Except.error "KeyError: title" := by decide

/-- C2 as amended: a missing backing file yields the empty sequence with
no warning; a file that fails JSON parsing yields the empty sequence
plus a warning and the store remains usable (a subsequent add succeeds
and rewrites the file); a parsed file whose records all deserialize
loads them in order with no warning.  Content that parses as JSON but
contains an invalid record, however, raises an uncaught error instead
(see the counterexample). -/
theorem C2_load_amended (now now2 : String) (pd : String → Option String) :
    TaskManager.init now RawFile.missing = Except.ok (⟨[], RawFile.missing⟩, false) ∧
    TaskManager.init now RawFile.unparseable =
      Except.ok (⟨[], RawFile.unparseable⟩, true) ∧
    (∀ rs ts, tasksFromRecords now rs = Except.ok ts →
      TaskManager.init now (RawFile.parsed rs) = Except.ok (⟨ts, RawFile.parsed rs⟩, false)) ∧
    (∃ m2 t, TaskManager.add_task pd now2 ⟨[], RawFile.unparseable⟩
        "x" "medium" none none = Except.ok (m2, t) ∧
      m2.file = RawFile.parsed [t.to_dict] ∧ m2.tasks = [t]) := by
  refine ⟨rfl, rfl, ?_, ?_⟩
  · intro rs ts h
    simp [TaskManager.init, TaskManager.load_tasks, h]
  · refine ⟨⟨[⟨"x", .medium, none, [], false, now2⟩],
      RawFile.parsed [Task.to_dict ⟨"x", .medium, none, [], false, now2⟩]⟩,
      ⟨"x", .medium, none, [], false, now2⟩, ?_, rfl, rfl⟩
    rw [TaskManager.add_task, if_neg (by decide)]
    have hp : Priority.parse "medium" = some .medium := by decide
    have hx : pyStrip "x" = "x" := by decide
    simp [Task.init, hp, hx, TaskManager.save_tasks]

/-- Witness for C2's amended statement: loading a parsed file with one
valid record yields that task, no warning. -/
theorem C2_load_amended_witness :
    TaskManager.init "t0" (RawFile.parsed
        [⟨some "T", some "low", some none, some ["w"], some false, some "c0"⟩]) =
      Except.ok (⟨[⟨"T", .low, none, ["w"], false, "c0"⟩],
        RawFile.parsed [⟨some "T", some "low", some none, some ["w"], some false,
          some "c0"⟩]⟩, false) := by
  exact (C2_load_amended "t0" "t0" (fun _ => none)).2.2.1
    [⟨some "T", some "low", some none, some ["w"], some false, some "c0"⟩]
    [⟨"T", .low, none, ["w"], false, "c0"⟩] (by decide)

lemma anyCongrMem {α : Type} (l : List α) (p q : α → Bool)
    (h : ∀ a ∈ l, p a = q a) : l.any p = l.any q := by
  induction l with
  | nil => rfl
  | cons a l ih =>
    simp only [List.any_cons, h a (by simp)]
    rw [ih (fun b hb => h b (by simp [hb]))]

lemma searchLoop_eq_filter (q : String) (ts : List Task) :
    searchLoop q ts =
      ts.filter (fun t => pyIn q (pyLower t.title) || t.tags.any (fun g => pyIn q g)) := by
  induction ts with
  | nil => rfl
  | cons t ts ih =>
    by_cases h1 : pyIn q (pyLower t.title) = true
    · simp [searchLoop, List.filter_cons, h1, ih]
    · by_cases h2 : t.tags.any (fun g => pyIn q g) = true
      · simp [searchLoop, List.filter_cons, h1, h2, ih]
      · simp [searchLoop, List.filter_cons, h1, h2, ih]

/-- The match predicate exactly as the specification words it (claim C4):
the query occurs case-insensitively in the title or in at least one tag —
both sides lowered. -/
def specSearchMatch (q : String) (t : Task) : Bool :=
  pyIn (pyLower q) (pyLower t.title) || t.tags.any (fun g => pyIn (pyLower q) (pyLower g))

/-- C4 counterexample: the claim says a task whose tag differs from the
query only in letter case is matched.  For the store holding one task
with tag `"Work"` (as produced by `add` with `tags=["Work"]`, which does
not lower-case), `search("work")` returns nothing although the task
matches the claimed case-insensitive predicate. -/
theorem C4_search_counterexample :
    (TaskManager.mk [⟨"Meeting", .low, none, ["Work"], false, "t0"⟩]
        (RawFile.parsed [])).search_tasks "work" = [] ∧
    specSearchMatch "work" ⟨"Meeting", .low, none, ["Work"], false, "t0"⟩ = true := by
  constructor
  · decide
  · decide

/-- C4 as amended: `search_tasks` returns exactly the tasks whose
lowered title contains the lowered query, or one of whose tags — taken
as stored, not lowered — contains the lowered query, preserving store
order (a filter of the store sequence).  Search is therefore
case-insensitive in the query but case-sensitive in the stored tag;
whenever every stored tag is already lower-case the original claim
holds. -/
theorem C4_search_amended (m : TaskManager) (q : String) :
    m.search_tasks q =
      m.tasks.filter (fun t => pyIn (pyLower q) (pyLower t.title) ||
        t.tags.any (fun g => pyIn (pyLower q) g)) ∧
    ((∀ t ∈ m.tasks, ∀ g ∈ t.tags, pyLower g = g) →
      m.search_tasks q = m.tasks.filter (specSearchMatch q)) := by
  have h1 := searchLoop_eq_filter (pyLower q) m.tasks
  refine ⟨h1, fun hlow => ?_⟩
  rw [TaskManager.search_tasks, h1]
  apply List.filter_congr
  intro t ht
  have : t.tags.any (fun g => pyIn (pyLower q) g) =
      t.tags.any (fun g => pyIn (pyLower q) (pyLower g)) := by
    apply anyCongrMem
    intro g hg
    rw [hlow t ht g hg]
  rw [specSearchMatch, this]

/-- Witness for C4's amended statement: on a store whose tags are all
lower-case, search is case-insensitive against tags as well. -/
theorem C4_search_amended_witness :
    (TaskManager.mk [⟨"Alpha", .low, none, ["work"], false, "t0"⟩]
        (RawFile.parsed [])).search_tasks "WORK" =
      [⟨"Alpha", .low, none, ["work"], false, "t0"⟩] := by
  have h := (C4_search_amended
    (TaskManager.mk [⟨"Alpha", .low, none, ["work"], false, "t0"⟩]
      (RawFile.parsed [])) "WORK").2 (by decide)
  rw [h]
  decide

/-- The task state left in the store by the field-update sequence of
`update_task`, on either outcome: the updated task on success, or the
partially-updated task (title already assigned) carried by the raised
error. -/
def utfTask : Except (String × Task) Task → Task
  | .ok t => t
  | .error (_, t) => t

lemma applyDueAndTags_frame (pd : String → Option String) (t : Task)
    (dd : Option String) (tg : Option (List String)) :
    (applyDueAndTags pd t dd tg).completed = t.completed ∧
    (applyDueAndTags pd t dd tg).created_at = t.created_at ∧
    (applyDueAndTags pd t dd tg).title = t.title ∧
    (applyDueAndTags pd t dd tg).priority = t.priority ∧
    (dd = none → (applyDueAndTags pd t dd tg).due_date = t.due_date) ∧
    (tg = none → (applyDueAndTags pd t dd tg).tags = t.tags) := by
  rcases dd with _ | d <;> rcases tg with _ | l <;> simp [applyDueAndTags]

lemma updateTaskFields_frame (pd : String → Option String) (t0 : Task)
    (title priority due_date : Option String) (tags : Option (List String)) (r : Task)
    (hr : utfTask (updateTaskFields pd t0 title priority due_date tags) = r) :
    r.completed = t0.completed ∧ r.created_at = t0.created_at ∧
    (title = none → r.title = t0.title) ∧
    (priority = none → r.priority = t0.priority) ∧
    (due_date = none → r.due_date = t0.due_date) ∧
    (tags = none → r.tags = t0.tags) := by
  subst hr
  rcases title with _ | s <;> rcases priority with _ | p <;>
    rcases due_date with _ | d <;> rcases tags with _ | l <;>
    simp only [updateTaskFields, applyDueAndTags] <;>
    (repeat' split) <;>
    simp_all [utfTask]

lemma update_task_valid (pd : String → Option String) (m : TaskManager) (index : Int)
    (title priority due_date : Option String) (tags : Option (List String))
    (h : 0 ≤ index ∧ index < (m.tasks.length : Int)) (hi : index.toNat < m.tasks.length) :
    m.update_task pd index title priority due_date tags =
      match updateTaskFields pd (m.tasks.get ⟨index.toNat, hi⟩)
          title priority due_date tags with
      | .error (e, t1) => ({ m with tasks := m.tasks.set index.toNat t1 }, .error e)
      | .ok t2 =>
        (({ m with tasks := m.tasks.set index.toNat t2 }).save_tasks, .ok (some t2)) := by
  rw [TaskManager.update_task, dif_pos h]

/-- C7: `update_task` applies only the provided fields.  For every valid
index the store's task sequence changes only at that index, the task
there keeps its `completed` flag and `created_at` timestamp, and every
omitted (`None`) field keeps its previous value — on the success path
and on the `InvalidPriority` error path alike.  For every invalid index
the call returns `None` and the store is unchanged. -/
theorem C7_update_frame (pd : String → Option String) (m : TaskManager) (index : Int)
    (title priority due_date : Option String) (tags : Option (List String)) :
    (¬ (0 ≤ index ∧ index < (m.tasks.length : Int)) →
      m.update_task pd index title priority due_date tags = (m, Except.ok none)) ∧
    ((0 ≤ index ∧ index < (m.tasks.length : Int)) →
      ∃ t0 t1,
        m.tasks[index.toNat]? = some t0 ∧
        (m.update_task pd index title priority due_date tags).1.tasks =
          m.tasks.set index.toNat t1 ∧
        t1.completed = t0.completed ∧ t1.created_at = t0.created_at ∧
        (title = none → t1.title = t0.title) ∧
        (priority = none → t1.priority = t0.priority) ∧
        (due_date = none → t1.due_date = t0.due_date) ∧
        (tags = none → t1.tags = t0.tags)) := by
  constructor
  · intro h
    rw [TaskManager.update_task, dif_neg h]
  · intro h
    have hi : index.toNat < m.tasks.length := by omega
    refine ⟨m.tasks.get ⟨index.toNat, hi⟩,
      utfTask (updateTaskFields pd (m.tasks.get ⟨index.toNat, hi⟩)
        title priority due_date tags), ?_, ?_, ?_⟩
    · simp [List.getElem?_eq_getElem hi]
    · rw [update_task_valid pd m index title priority due_date tags h hi]
      rcases hu : updateTaskFields pd (m.tasks.get ⟨index.toNat, hi⟩)
          title priority due_date tags with et | t2
      · rcases et with ⟨e, t1⟩
        simp [utfTask]
      · simp [utfTask, TaskManager.save_tasks]
    · exact updateTaskFields_frame pd _ title priority due_date tags _ rfl

/-- Witness for C7: updating only the priority of the second of two
tasks changes exactly that task's priority and nothing else. -/
theorem C7_update_frame_witness :
    ∃ t0 t1,
      (TaskManager.mk [⟨"A", .low, none, [], false, "t0"⟩,
          ⟨"B", .medium, none, ["x"], true, "t1"⟩]
        (RawFile.parsed [])).tasks[(1 : Int).toNat]? = some t0 ∧
      ((TaskManager.mk [⟨"A", .low, none, [], false, "t0"⟩,
          ⟨"B", .medium, none, ["x"], true, "t1"⟩]
        (RawFile.parsed [])).update_task (fun _ => none) 1
          none (some "HIGH") none none).1.tasks =
        (TaskManager.mk [⟨"A", .low, none, [], false, "t0"⟩,
          ⟨"B", .medium, none, ["x"], true, "t1"⟩]
        (RawFile.parsed [])).tasks.set (1 : Int).toNat t1 ∧
      t1.completed = t0.completed ∧ t1.created_at = t0.created_at ∧
      t1.title = t0.title ∧ t1.due_date = t0.due_date ∧ t1.tags = t0.tags := by
  obtain ⟨-, hv⟩ := C7_update_frame (fun _ => none)
    (TaskManager.mk [⟨"A", .low, none, [], false, "t0"⟩,
      ⟨"B", .medium, none, ["x"], true, "t1"⟩] (RawFile.parsed []))
    1 none (some "HIGH") none none
  obtain ⟨t0, t1, hget, hset, hc, hca, hti, -, hdd, htg⟩ := hv (by constructor <;> decide)
  exact ⟨t0, t1, hget, hset, hc, hca, hti rfl, hdd rfl, htg rfl⟩

/-- C9: when `update_task` is called with a valid index, a provided
(truthy) title and an invalid (truthy) priority, the title assignment has
already happened when the `ValueError` is raised: the stored task keeps
the new trimmed title, the error propagates, and the save step is never
reached, so the backing file is left exactly as it was — the in-memory
sequence and the persisted snapshot diverge on this path. -/
theorem C9_update_error_after_title_before_save (pd : String → Option String)
    (m : TaskManager) (index : Int) (s p : String) (dd : Option String)
    (tg : Option (List String))
    (h : 0 ≤ index ∧ index < (m.tasks.length : Int))
    (hs : s ≠ "") (hp : p ≠ "") (hbad : Priority.parse p = none) :
    ∃ t0, m.tasks[index.toNat]? = some t0 ∧
      m.update_task pd index (some s) (some p) dd tg =
        ({ m with tasks := m.tasks.set index.toNat { t0 with title := pyStrip s } },
         Except.error "Priority must be low, medium, or high") ∧
      (m.update_task pd index (some s) (some p) dd tg).1.file = m.file := by
  have hi : index.toNat < m.tasks.length := by omega
  refine ⟨m.tasks.get ⟨index.toNat, hi⟩, by simp [List.getElem?_eq_getElem hi], ?_⟩
  have hu : updateTaskFields pd (m.tasks.get ⟨index.toNat, hi⟩)
      (some s) (some p) dd tg =
      .error ("Priority must be low, medium, or high",
        { m.tasks.get ⟨index.toNat, hi⟩ with title := pyStrip s }) := by
    simp [updateTaskFields, hs, hp, hbad]
  rw [update_task_valid pd m index (some s) (some p) dd tg h hi, hu]
  exact ⟨rfl, rfl⟩

/-- Witness for C9: a one-task store, new title `"New"`, bad priority
`"urgent"` — the in-memory title changes while the file stays stale. -/
theorem C9_witness :
    (TaskManager.mk [⟨"Old", .low, none, [], false, "t0"⟩]
        (RawFile.parsed [])).update_task (fun _ => none) 0
        (some "New") (some "urgent") none none =
      (TaskManager.mk [⟨"New", .low, none, [], false, "t0"⟩] (RawFile.parsed []),
       Except.error "Priority must be low, medium, or high") := by
  obtain ⟨t0, hget, heq, -⟩ := C9_update_error_after_title_before_save
    (fun _ => none)
    (TaskManager.mk [⟨"Old", .low, none, [], false, "t0"⟩] (RawFile.parsed []))
    0 "New" "urgent" none none (by constructor <;> decide)
    (by decide) (by decide) (by decide)
  have ht0 : t0 = ⟨"Old", .low, none, [], false, "t0"⟩ := by
    have hx : (TaskManager.mk [⟨"Old", .low, none, [], false, "t0"⟩]
        (RawFile.parsed [])).tasks[(0 : Int).toNat]? =
        some ⟨"Old", .low, none, [], false, "t0"⟩ := rfl
    rw [hx] at hget
    exact (Option.some.inj hget).symm
  subst ht0
  rw [heq]
  decide

lemma tupleLe_refl (a : Nat × Nat × Nat) : tupleLe a a = true := by
  simp [tupleLe]

lemma tupleLe_trans (a b c : Nat × Nat × Nat) (h1 : tupleLe a b = true)
    (h2 : tupleLe b c = true) : tupleLe a c = true := by
  simp only [tupleLe, Bool.or_eq_true, Bool.and_eq_true, decide_eq_true_eq] at *
  omega

lemma tupleLe_total (a b : Nat × Nat × Nat) : (tupleLe a b || tupleLe b a) = true := by
  simp only [tupleLe, Bool.or_eq_true, Bool.and_eq_true, decide_eq_true_eq]
  omega

lemma keyLe_trans (today : String) (a b c : Task) (h1 : keyLe today a b = true)
    (h2 : keyLe today b c = true) : keyLe today a c = true :=
  tupleLe_trans _ _ _ h1 h2

lemma keyLe_total (today : String) (a b : Task) :
    (keyLe today a b || keyLe today b a) = true :=
  tupleLe_total _ _

/-- C6: for every filtered task list, `get_tasks_sorted` returns a
permutation of `list_tasks` that is sorted by the 3-key ascending
comparator (completed ascending, priority rank ascending with high=0 /
medium=1 / low=2, overdue-descending encoded as `not is_overdue`
ascending); ties preserve the original relative store order: for each
key value, the subsequence carrying that key is exactly the
corresponding subsequence of the unsorted list.  Concretely, incomplete
tasks of priorities [low, high, medium] sort to [high, medium, low],
and marking the high-priority task complete moves it after all
incomplete tasks. -/
theorem C6_get_tasks_sorted (m : TaskManager) (today : String) (sc : Bool)
    (pf tf : Option String) :
    ((m.get_tasks_sorted today sc pf tf).Perm (m.list_tasks sc pf tf) ∧
     (m.get_tasks_sorted today sc pf tf).Pairwise (fun a b => keyLe today a b = true) ∧
     (∀ k, (m.get_tasks_sorted today sc pf tf).filter
          (fun t => decide (sortKey today t = k)) =
        (m.list_tasks sc pf tf).filter (fun t => decide (sortKey today t = k)))) ∧
    (TaskManager.mk [⟨"L", .low, none, [], false, "c"⟩, ⟨"H", .high, none, [], false, "c"⟩,
        ⟨"M", .medium, none, [], false, "c"⟩] (RawFile.parsed [])).get_tasks_sorted
        "2025-01-01" true none none =
      [⟨"H", .high, none, [], false, "c"⟩, ⟨"M", .medium, none, [], false, "c"⟩,
       ⟨"L", .low, none, [], false, "c"⟩] ∧
    (TaskManager.mk [⟨"L", .low, none, [], false, "c"⟩,
        Task.mark_complete ⟨"H", .high, none, [], false, "c"⟩,
        ⟨"M", .medium, none, [], false, "c"⟩] (RawFile.parsed [])).get_tasks_sorted
        "2025-01-01" true none none =
      [⟨"M", .medium, none, [], false, "c"⟩, ⟨"L", .low, none, [], false, "c"⟩,
       Task.mark_complete ⟨"H", .high, none, [], false, "c"⟩] := by
  refine ⟨⟨List.mergeSort_perm _ _,
    List.sorted_mergeSort (keyLe_trans today) (keyLe_total today) _, ?_⟩, ?_, ?_⟩
  · intro k
    simp only [TaskManager.get_tasks_sorted]
    set l := m.list_tasks sc pf tf with hl
    set p : Task → Bool := fun t => decide (sortKey today t = k) with hp
    have hmemk : ∀ a, a ∈ l.filter p → sortKey today a = k := by
      intro a ha
      have := (List.mem_filter.mp ha).2
      simpa [hp] using this
    have hpair : (l.filter p).Pairwise (fun a b => keyLe today a b = true) := by
      apply List.pairwise_of_forall_mem_list
      intro a ha b hb
      show keyLe today a b = true
      rw [keyLe, hmemk a ha, hmemk b hb]
      exact tupleLe_refl k
    have h1 : (l.filter p).Sublist (l.mergeSort (keyLe today)) :=
      List.sublist_mergeSort (keyLe_trans today) (keyLe_total today) hpair
        (List.filter_sublist l)
    have h2 : (l.filter p).filter p = l.filter p :=
      List.filter_eq_self.mpr (fun a ha => (List.mem_filter.mp ha).2)
    have h3 : ((l.mergeSort (keyLe today)).filter p).Perm (l.filter p) :=
      (List.mergeSort_perm l (keyLe today)).filter p
    have h4 : (l.filter p).Sublist ((l.mergeSort (keyLe today)).filter p) := by
      have h5 := h1.filter p
      rwa [h2] at h5
    exact (h4.eq_of_length h3.length_eq.symm).symm
  · simp [TaskManager.get_tasks_sorted, TaskManager.list_tasks, List.mergeSort,
      List.splitInTwo, List.merge, List.splitAt, List.splitAt.go, keyLe, tupleLe,
      sortKey, priority_order, Task.is_overdue, Task.mark_complete]
  · simp [TaskManager.get_tasks_sorted, TaskManager.list_tasks, List.mergeSort,
      List.splitInTwo, List.merge, List.splitAt, List.splitAt.go, keyLe, tupleLe,
      sortKey, priority_order, Task.is_overdue, Task.mark_complete]

end TaskMgr
